import Mathlib

/-!
Verification development for the manos audio engine.

This file gives a shallow embedding of the parameter-mapping generator
(`ParameterMapper`, src/audioEngine.js lines 1559-2278), the effect-graph
manager (`AudioEngine`, src/audioEngine.js lines 1-1057), the persistence
helpers, and the performance-throttling state machine (including the
application-level `throttleEffects` callback from the main module), and
proves properties of them.

Modelling conventions:
- JS numbers are modelled as rationals (all constants involved are exact
  decimals, and the properties proved do not depend on float rounding).
- `Math.random()`-driven choices are modelled by an oracle structure `Rand`:
  every in-place shuffle and every sort with a randomised comparator is an
  oracle-chosen permutation of its input (carried as a `Perm` field), and
  index picks / coin flips are oracle functions.  Every concrete run of the
  JS code corresponds to some oracle, so universally quantified theorems
  over `Rand` cover all runs; the identity oracle `idRand` is one reachable
  run (Fisher-Yates with j = i at every step, comparators keeping order).
- Sequential `this.mappings.push` calls inside loops are modelled by list
  concatenation / `flatMap` in the same order.
- The `previousHandParams` bookkeeping of the source only biases the
  randomised sort of hand-parameter candidates; since that sort is already
  an arbitrary oracle permutation here, the bookkeeping itself is not
  tracked.  Likewise the unused `count` parameter of `createRandomMappings`
  is dropped.
-/

namespace Manos

/-- A gesture-to-effect mapping, the record pushed by `addMapping`
(src/audioEngine.js lines 1856-1875). -/
structure Mapping where
  effectType : String
  effectParameter : String
  handParameter : String
  inverted : Bool
deriving DecidableEq

/-- `this.availableParameters` of the current ParameterMapper
(src/audioEngine.js lines 1572-1587), in insertion order. -/
def availableParameters : List (String × List String) :=
  [("filter", ["frequency", "Q", "type"]),
   ("delay", ["delayTime", "feedback", "wet"]),
   ("reverb", ["decay", "wet"]),
   ("distortion", ["distortion", "wet"]),
   ("chorus", ["frequency", "depth", "wet"]),
   ("pitchShift", ["pitch", "wet"]),
   ("compressor", ["threshold", "ratio", "attack", "release"]),
   ("eq", ["low", "mid", "high"]),
   ("panner", ["pan"]),
   ("vibrato", ["frequency", "depth", "wet"]),
   ("phaser", ["frequency", "octaves", "wet"]),
   ("tremolo", ["frequency", "depth", "wet"]),
   ("bitCrusher", ["bits", "wet"]),
   ("volume", ["level"])]

/-- The keys of `availableParameters`. -/
def effectNames : List String := availableParameters.map Prod.fst

/-- `this.handParameters` (src/audioEngine.js lines 1593-1605). -/
def handParameters : List String :=
  ["height", "fingerSpread", "positionX", "positionY", "proximity",
   "curl.thumb", "curl.index", "curl.middle", "curl.ring", "curl.overall",
   "velocity"]

/-- Dictionary access `this.availableParameters[effectType]`, empty list when
the key is absent (the JS code would throw on a spread of `undefined`; all
theorems about invalid inputs therefore carry a validity hypothesis). -/
def lookupParams (effectType : String) : List String :=
  (((availableParameters.find? (fun kv => kv.1 == effectType)).map Prod.snd).getD [])

/-- The default `this.selectedEffects` set in the constructor
(src/audioEngine.js line 1679): all effect keys except volume. -/
def defaultSelectedEffects : List String :=
  effectNames.filter (fun t => t != "volume")

/-- Randomness oracle.  The permutation fields stand for `shuffleArray`
calls and for `Array.prototype.sort` with randomised comparators (whose
result is always some permutation of the input); `pickIndex` stands for
`Math.floor(Math.random() * list.length)`; `invertFlag` for the
`Math.random() > 0.4` inversion flip and `wetRand` for the wet-value
`Math.random()`, keyed by the (effect, parameter) pair being processed. -/
structure Rand where
  shuffleEffects : List String → List String
  sortPool : List String → List String
  pickIndex : List String → Nat
  shuffleParams : String → List String → List String
  sortHandParams : String → String → List String → List String
  invertFlag : String → String → Bool
  wetRand : String → String → ℚ
  shuffleEffects_perm : ∀ l, List.Perm (shuffleEffects l) l
  sortPool_perm : ∀ l, List.Perm (sortPool l) l
  shuffleParams_perm : ∀ e l, List.Perm (shuffleParams e l) l
  sortHandParams_perm : ∀ e p l, List.Perm (sortHandParams e p l) l

/-- The identity oracle: every shuffle and sort keeps its input order and
every index pick is 0 (a reachable run of the JS randomness). -/
def idRand : Rand where
  shuffleEffects := fun l => l
  sortPool := fun l => l
  pickIndex := fun _ => 0
  shuffleParams := fun _ l => l
  sortHandParams := fun _ _ l => l
  invertFlag := fun _ _ => false
  wetRand := fun _ _ => 0
  shuffleEffects_perm := fun l => List.Perm.refl l
  sortPool_perm := fun l => List.Perm.refl l
  shuffleParams_perm := fun _ l => List.Perm.refl l
  sortHandParams_perm := fun _ _ l => List.Perm.refl l

/-- `addMapping(effectType, effectParameter, handParameter, inverted)`
(src/audioEngine.js lines 1856-1875): validates the names and pushes the
mapping record, returning the updated list and the success flag. -/
def addMapping (mappings : List Mapping) (effectType effectParameter handParameter : String)
    (inverted : Bool) : List Mapping × Bool :=
  if (availableParameters.find? (fun kv => kv.1 == effectType)).isSome
      ∧ effectParameter ∈ lookupParams effectType
      ∧ handParameter ∈ handParameters then
    (mappings ++ [{ effectType := effectType, effectParameter := effectParameter,
                    handParameter := handParameter, inverted := inverted }], true)
  else
    (mappings, false)

/-- Hand-parameter selection for one (effect, parameter) pair
(src/audioEngine.js lines 1810-1825): filter out proximity, sort with the
randomised previously-unused-first comparator (an oracle permutation) and
take the first element. -/
def handPick (r : Rand) (effectType param : String) : String :=
  ((r.sortHandParams effectType param
      (handParameters.filter (fun q => q != "proximity"))).headD "")

/-- One loop iteration of the per-parameter mapping creation
(src/audioEngine.js lines 1806-1836): the mappings that
`addMapping(effectType, param, handParam, inverted)` appends. -/
def mappingFor (r : Rand) (effectType param : String) : List Mapping :=
  ((addMapping [] effectType param (handPick r effectType param)
      (r.invertFlag effectType param)).1)

/-- The number of parameters mapped for one effect
(src/audioEngine.js lines 1798-1802):
`min(ceil(((chaosLevel * 0.6) + 0.4) * maxParams), maxParams)`. -/
def paramCountFor (chaosLevel : ℚ) (maxParams : Nat) : Nat :=
  min (Int.ceil ((chaosLevel * (6/10) + 4/10) * (maxParams : ℚ))).toNat maxParams

/-- Mappings created for one selected effect (src/audioEngine.js lines
1793-1845): shuffle a copy of the parameter list, shift `paramCount`
parameters off it and add one mapping per parameter. -/
def effectMappings (r : Rand) (chaosLevel : ℚ) (effectType : String) : List Mapping :=
  let parameterOptions := r.shuffleParams effectType (lookupParams effectType)
  let paramCount := paramCountFor chaosLevel parameterOptions.length
  (parameterOptions.take paramCount).flatMap (fun param => mappingFor r effectType param)

/-- The wet-level initialisations performed in the same loop
(src/audioEngine.js lines 1839-1843): for each selected `wet` parameter,
`setEffectParameter(effectType, 'wet', 0.2 + Math.random() * 0.5)`. -/
def effectWetInits (r : Rand) (chaosLevel : ℚ) (effectType : String) : List (String × ℚ) :=
  let parameterOptions := r.shuffleParams effectType (lookupParams effectType)
  let paramCount := paramCountFor chaosLevel parameterOptions.length
  (parameterOptions.take paramCount).flatMap
    (fun param =>
      if param == "wet" then [(effectType, 2/10 + r.wetRand effectType param * (5/10))]
      else [])

/-- `harmonicEffects` (src/audioEngine.js line 1756). -/
def harmonicEffects : List String := ["reverb", "chorus", "filter", "eq", "panner"]

/-- `chaoticEffects` (src/audioEngine.js line 1758). -/
def chaoticEffects : List String := ["distortion", "bitCrusher", "pitchShift", "phaser"]

/-- `list[Math.floor(Math.random() * list.length)]` on a possibly empty
list (`undefined`, i.e. `none`, when empty). -/
def chooseOne (r : Rand) (l : List String) : Option String :=
  if l.isEmpty then none
  else some (l.getD (r.pickIndex l % l.length) "")

/-- The forced-effect selection (src/audioEngine.js lines 1763-1782): at
low chaos one unused chaotic effect, at high chaos one unused harmonic
effect, otherwise nothing. -/
def forcedPick (r : Rand) (chaosLevel : ℚ) (oldEffects effectTypes : List String) :
    Option String :=
  if chaosLevel < 3/10 then
    chooseOne r (chaoticEffects.filter
      (fun e => !(oldEffects.contains e) && effectTypes.contains e))
  else if 7/10 < chaosLevel then
    chooseOne r (harmonicEffects.filter
      (fun e => !(oldEffects.contains e) && effectTypes.contains e))
  else none

/-- Effect selection (src/audioEngine.js lines 1746-1790): sort the pool
with the randomised unused-first comparator (an oracle permutation),
optionally splice out a forced effect, then shift effects off the pool
until `randomEffectCount` are selected. -/
def selectEffects (r : Rand) (chaosLevel : ℚ) (oldEffects effectTypes : List String)
    (randomEffectCount : Nat) : List String :=
  let effectPool := r.sortPool effectTypes
  match forcedPick r chaosLevel oldEffects effectTypes with
  | some forced => forced :: (effectPool.erase forced).take (randomEffectCount - 1)
  | none => effectPool.take randomEffectCount

/-- `effectTypes` after filtering the whitelist and defaulting to filter
when nothing but volume is selected (src/audioEngine.js lines 1727-1733). -/
def filteredEffectTypes (selectedEffects : List String) : List String :=
  let effectTypes := selectedEffects.filter (fun t => t != "volume")
  if effectTypes.isEmpty then ["filter"] else effectTypes

/-- `randomEffectCount` (src/audioEngine.js lines 1740-1743):
`floor(minEffects + chaosLevel * (maxEffects - minEffects))` with
`minEffects = min(2, n)` and `maxEffects = min(8, n)`. -/
def randomEffectCount (chaosLevel : ℚ) (n : Nat) : Nat :=
  (Int.floor (((min 2 n : ℕ) : ℚ)
    + chaosLevel * (((min 8 n : ℕ) : ℚ) - ((min 2 n : ℕ) : ℚ)))).toNat

/-- Result of `createRandomMappings`: the new `this.mappings`, the new
`this.previousEffects`, and the wet-level initialisations sent to the
audio engine. -/
structure GenResult where
  mappings : List Mapping
  previousEffects : List String
  wetInits : List (String × ℚ)

/-- `createRandomMappings(count, chaosLevel)` (src/audioEngine.js lines
1711-1854): clear the mappings, add the reserved volume/level/proximity
mapping, select effects from the (shuffled) whitelist and create the
per-effect mappings. -/
def createRandomMappings (r : Rand) (previousEffects selectedEffects : List String)
    (chaosLevel : ℚ) : GenResult :=
  let shuffled := r.shuffleEffects (filteredEffectTypes selectedEffects)
  let chosen := selectEffects r chaosLevel previousEffects shuffled
      (randomEffectCount chaosLevel shuffled.length)
  { mappings := (addMapping [] ("volume") ("level") ("proximity") false).1
      ++ chosen.flatMap (fun effectType => effectMappings r chaosLevel effectType),
    previousEffects := chosen,
    wetInits := chosen.flatMap (fun effectType => effectWetInits r chaosLevel effectType) }

/-- The reserved mapping added first on every generation
(src/audioEngine.js line 1723). -/
def reservedVolumeMapping : Mapping :=
  { effectType := "volume", effectParameter := "level",
    handParameter := "proximity", inverted := false }

/-! ## AudioEngine (src/audioEngine.js lines 1-1057) -/

/-- The keys of `this.effects`, in the insertion order of the constructor
(src/audioEngine.js lines 27-42), which is also the `for (const key in
this.effects)` iteration order. -/
def engineEffectKeys : List String :=
  ["filter", "delay", "reverb", "distortion", "chorus", "pitchShift",
   "compressor", "eq", "panner", "vibrato", "phaser", "tremolo",
   "bitCrusher", "volume"]

/-- The audio-graph state relevant to parameter setting and chain
rebuilding.  `wet k` is the wet-level of effect `k` (`none` for effects
without a wet property), `params` holds the other numeric parameters
(`none` when the property does not exist on the node), `volumeLevel` is
`effects.volume.volume.value`, and `connections` is the list of
source→target wires made by the last `updateEffectsChain` (ramped setters
are modelled by their final values). -/
structure EngineState where
  initialized : Bool
  baselineVolume : ℚ
  volumeLevel : ℚ
  wet : String → Option ℚ
  params : String → String → Option ℚ
  filterType : String
  effectsChain : List String
  connections : List (String × String)

/-- The membership test `effect.wet && effect.wet.value > 0` of
`updateEffectsChain` (src/audioEngine.js line 668). -/
def wetAbove (s : EngineState) (k : String) : Bool :=
  match s.wet k with
  | some w => decide (0 < w)
  | none => false

/-- The head of the wet path, `("postVolumeGain", first)` followed by the
pairwise links of the chain and the final link into the crossfade wet
input (src/audioEngine.js lines 673-683). -/
def wetPathLinks (chain : List String) : List (String × String) :=
  match chain with
  | [] => [("postVolumeGain", "crossFade.b")]
  | c :: _ =>
      [("postVolumeGain", c)] ++ chain.zip chain.tail
        ++ [(chain.getLastD "", "crossFade.b")]

/-- `updateEffectsChain()` (src/audioEngine.js lines 642-695): rebuild
`this.effectsChain` by iterating the effect keys, skipping compressor and
volume, including an effect when its wet level is above 0 or it is one of
the always-included utilities (filter, eq, panner); then rewire
source→compressor→volume→postVolumeGain, the dry path into crossFade.a,
the wet path from postVolumeGain through the chain into crossFade.b, and
crossFade→outputNode.  Disconnect-then-reconnect is modelled by rebuilding
the connection list wholesale. -/
def updateEffectsChain (s : EngineState) : EngineState :=
  let chain := engineEffectKeys.filter
    (fun k => !(k == "compressor" || k == "volume")
      && (wetAbove s k || k == "filter" || k == "eq" || k == "panner"))
  { s with
    effectsChain := chain,
    connections :=
      [("sourceNode", "compressor"), ("compressor", "volume"),
       ("volume", "postVolumeGain"), ("postVolumeGain", "crossFade.a")]
      ++ wetPathLinks chain ++ [("crossFade", "outputNode")] }

/-- `filterTypes` of the filter-type special case
(src/audioEngine.js line 900). -/
def filterTypes : List String := ["lowpass", "highpass", "bandpass", "notch", "allpass"]

/-- `setEffectParameter(effectName, parameter, value)` (src/audioEngine.js
lines 863-943).  The body is wrapped in try/catch in the source, so the
function is total and reports failure through the returned Bool; ramped
transitions (`rampTo`) are modelled by their final values. -/
def setEffectParameter (s : EngineState) (effectName parameter : String) (value : ℚ) :
    EngineState × Bool :=
  if ¬ (s.initialized = true) ∨ ¬ (effectName ∈ engineEffectKeys) then (s, false)
  else if effectName = "volume" ∧ parameter = "volume" then
    ({ s with volumeLevel := min (max value (-60)) 12 }, true)
  else if effectName = "filter" ∧ parameter = "type" then
    let index : ℤ :=
      min (max 0 (Int.floor (value * (filterTypes.length : ℚ)))) ((filterTypes.length : ℤ) - 1)
    ({ s with filterType := filterTypes.getD index.toNat "" }, true)
  else if parameter = "wet" ∧ (s.wet effectName).isSome then
    (updateEffectsChain
      { s with wet := fun k => if k = effectName then some (min (max 0 value) 1) else s.wet k },
     true)
  else if (s.params effectName parameter).isSome then
    let s1 : EngineState :=
      { s with params := fun e p =>
          if e = effectName ∧ p = parameter then some value else s.params e p }
    ((if parameter = "wet" then updateEffectsChain s1 else s1), true)
  else (s, false)

/-- `this.parameterRanges` of the current ParameterMapper
(src/audioEngine.js lines 1608-1672); `scale` keeps the source's string
tag. -/
structure ParamRange where
  min : ℚ
  max : ℚ
  scale : String
deriving DecidableEq

/-- The declared ranges table (src/audioEngine.js lines 1608-1672). -/
def parameterRanges : List (String × List (String × ParamRange)) :=
  [("filter",
    [("frequency", { min := 200, max := 8000, scale := "exponential" }),
     ("Q", { min := 1/10, max := 5, scale := "exponential" }),
     ("type", { min := 0, max := 1, scale := "linear" })]),
   ("delay",
    [("delayTime", { min := 1/10, max := 6/10, scale := "linear" }),
     ("feedback", { min := 0, max := 6/10, scale := "linear" }),
     ("wet", { min := 0, max := 5/10, scale := "linear" })]),
   ("reverb",
    [("decay", { min := 2/10, max := 3, scale := "linear" }),
     ("wet", { min := 0, max := 5/10, scale := "linear" })]),
   ("distortion",
    [("distortion", { min := 0, max := 4/10, scale := "linear" }),
     ("wet", { min := 0, max := 5/10, scale := "linear" })]),
   ("chorus",
    [("frequency", { min := 5/10, max := 3, scale := "linear" }),
     ("depth", { min := 0, max := 5/10, scale := "linear" }),
     ("wet", { min := 0, max := 5/10, scale := "linear" })]),
   ("pitchShift",
    [("pitch", { min := -7, max := 7, scale := "linear" }),
     ("wet", { min := 0, max := 6/10, scale := "linear" })]),
   ("compressor",
    [("threshold", { min := -40, max := -10, scale := "linear" }),
     ("ratio", { min := 1, max := 6, scale := "linear" }),
     ("attack", { min := 1/100, max := 2/10, scale := "exponential" }),
     ("release", { min := 1/10, max := 3/10, scale := "exponential" })]),
   ("eq",
    [("low", { min := -6, max := 6, scale := "linear" }),
     ("mid", { min := -6, max := 6, scale := "linear" }),
     ("high", { min := -6, max := 6, scale := "linear" })]),
   ("panner",
    [("pan", { min := -7/10, max := 7/10, scale := "linear" })]),
   ("vibrato",
    [("frequency", { min := 2, max := 6, scale := "linear" }),
     ("depth", { min := 0, max := 4/10, scale := "linear" }),
     ("wet", { min := 0, max := 5/10, scale := "linear" })]),
   ("phaser",
    [("frequency", { min := 2/10, max := 3, scale := "linear" }),
     ("octaves", { min := 1, max := 2, scale := "linear" }),
     ("wet", { min := 0, max := 5/10, scale := "linear" })]),
   ("tremolo",
    [("frequency", { min := 1, max := 8, scale := "linear" }),
     ("depth", { min := 0, max := 5/10, scale := "linear" }),
     ("wet", { min := 0, max := 5/10, scale := "linear" })]),
   ("bitCrusher",
    [("bits", { min := 4, max := 8, scale := "linear" }),
     ("wet", { min := 0, max := 4/10, scale := "linear" })]),
   ("volume",
    [("level", { min := 0, max := 1, scale := "linear" })])]

/-- `this.parameterRanges[effectType][parameter]` as an Option. -/
def lookupRange (effectType parameter : String) : Option ParamRange :=
  ((parameterRanges.find? (fun kv => kv.1 == effectType)).map Prod.snd).getD []
    |>.find? (fun kv => kv.1 == parameter) |>.map Prod.snd

/-- The volume value computed from proximity by the current
`processHandData` (src/audioEngine.js lines 1923-1931):
`baseline = this.audioEngine.baselineVolume || -10` (JS falsy fallback for
0), then `volumeOffset = proximity * 15 - 12`. -/
def processVolume (baselineVolume proximity : ℚ) : ℚ :=
  (if baselineVolume = 0 then (-10 : ℚ) else baselineVolume) + (proximity * 15 - 12)

/-- The reserved-volume-mapping step of `processHandData` with a hand frame
present (src/audioEngine.js lines 1920-1944): compute the volume from
proximity and apply it through `setEffectParameter('volume', 'volume', v)`.
No smoothing is applied on this path in the current source. -/
def processHandDataVolume (s : EngineState) (proximity : ℚ) : EngineState :=
  ((setEffectParameter s ("volume") ("volume") (processVolume s.baselineVolume proximity)).1)

/-! ## Persistence (src/audioEngine.js lines 2109-2187) -/

/-- One entry of the `manos-settings` store. -/
structure SavedSetting where
  name : String
  mappings : List Mapping
  id : String
deriving DecidableEq

/-- `saveCurrentSettings(name)` (src/audioEngine.js lines 2109-2138):
build `{name: name || default, mappings: deep copy, id: Date.now()
.toString()}` and append it to the stored list.  The JSON round-trip deep
copy is the identity on these records of strings and booleans; the
current time is the `nowId` argument. -/
def saveCurrentSettings (mappings : List Mapping) (name : Option String)
    (defaultName nowId : String) (store : List SavedSetting) :
    SavedSetting × List SavedSetting :=
  let settings : SavedSetting :=
    { name := name.getD defaultName, mappings := mappings, id := nowId }
  (settings, store ++ [settings])

/-- `loadSavedSettings(settingId)` (src/audioEngine.js lines 2140-2159):
find the first stored setting with the given id and install its mappings
(`none` models the `return false` paths that leave the mappings
unchanged). -/
def loadSavedSettings (settingId : String) (store : List SavedSetting) :
    Option (List Mapping) :=
  (store.find? (fun s => s.id == settingId)).map SavedSetting.mappings

/-! ## Selected effects and throttling
(src/audioEngine.js lines 2189-2277 and the application-level
`throttleEffects`/`restoreEffects` callbacks, src/unnamed/part_002 lines
1769-1861) -/

/-- `setSelectedEffects(effectTypes)` (src/audioEngine.js lines 2233-2240):
store the argument, appending volume when absent. -/
def setSelectedEffects (effectTypes : List String) : List String :=
  if effectTypes.contains ("volume") then effectTypes else effectTypes ++ ["volume"]

/-- `getSelectedEffects()` (src/audioEngine.js lines 2243-2245): the
stored list without volume. -/
def getSelectedEffects (selectedEffects : List String) : List String :=
  selectedEffects.filter (fun e => e != "volume")

/-- `setChaosLevel(level)` (src/audioEngine.js lines 2190-2194). -/
def setChaosLevel (level : ℚ) : ℚ := max 0 (min 1 level)

/-- The combined mapper/app throttling state: the ParameterMapper fields
(src/audioEngine.js lines 1682-1699) plus the application-level
`performanceStats.isThrottling` flag, whitelist and chaos level consumed
by `throttleEffects`. -/
structure PerfState where
  throttled : Bool
  minProcessInterval : ℚ
  lastProcessTimestamp : ℚ
  processingTime : ℚ
  consecutiveHeavyProcessing : ℚ
  lastHeavyLoadTime : ℚ
  selectedEffects : List String
  isThrottling : Bool
  chaosLevel : ℚ

/-- The reduced whitelist the first throttling level builds
(src/unnamed/part_002 lines 1814-1833): volume, then those of
filter/panner/eq currently selected, topped up with one further current
effect when fewer than three were collected. -/
def basicReduced (current : List String) : List String :=
  ["volume"] ++ (["filter", "panner", "eq"].filter (fun e => current.contains e))

/-- `basicReduced` plus the top-up step. -/
def reducedEffectsFor (current : List String) : List String :=
  if (basicReduced current).length < 3 then
    match current.filter (fun e => !((basicReduced current).contains e)) with
    | [] => basicReduced current
    | e :: _ => basicReduced current ++ [e]
  else basicReduced current

/-- `ManosApp.throttleEffects()` (src/unnamed/part_002 lines 1769-1851).
Escalation (already throttling): whitelist shrinks to filter+volume and
the chaos level drops to at most 0.1.  First level: whitelist shrinks to
the reduced list above.  The mapping regeneration and UI updates it also
performs do not affect this state. -/
def throttleEffects (s : PerfState) : PerfState :=
  if s.isThrottling then
    { s with selectedEffects := setSelectedEffects ["filter", "volume"],
             chaosLevel := setChaosLevel (min (1/10) s.chaosLevel) }
  else
    { s with isThrottling := true,
             selectedEffects :=
               setSelectedEffects (reducedEffectsFor (getSelectedEffects s.selectedEffects)) }

/-- `ManosApp.restoreEffects()` (src/unnamed/part_002 lines 1853-1861). -/
def restoreEffects (s : PerfState) : PerfState :=
  if s.isThrottling then { s with isThrottling := false } else s

/-- `enableThrottling()` (src/audioEngine.js lines 2248-2261): set the
throttled flag, raise the minimum processing interval to 33 ms and notify
the app. -/
def enableThrottling (s : PerfState) : PerfState :=
  if s.throttled = true then s
  else throttleEffects { s with throttled := true, minProcessInterval := 33 }

/-- `disableThrottling()` (src/audioEngine.js lines 2264-2277). -/
def disableThrottling (s : PerfState) : PerfState :=
  if s.throttled = false then s
  else restoreEffects { s with throttled := false, minProcessInterval := 16 }

/-- The rate-limit gate and cost-measurement path of `processHandData` for
a processed frame (src/audioEngine.js lines 1904-1914 and 2063-2084):
`now` is `performance.now()` at the gate and `cost` the measured
processing time, so `processEnd = now + cost`.  A heavy frame (cost over
8 ms) increments the consecutive-heavy counter and records the heavy
timestamp, throttling once the counter exceeds 5; a light frame decays
the counter by 0.2 (floored at 0) and leaves throttling only when the
counter is below 1 and more than 5000 ms have passed since the last heavy
load. -/
def processFrameTiming (s : PerfState) (now cost : ℚ) : PerfState :=
  if now - s.lastProcessTimestamp
      < (if s.throttled = true then (33 : ℚ) else s.minProcessInterval) then
    s
  else if 8 < cost then
    (if 5 < s.consecutiveHeavyProcessing + 1 ∧ s.throttled = false then
      enableThrottling
        { s with lastProcessTimestamp := now, processingTime := cost,
                 consecutiveHeavyProcessing := s.consecutiveHeavyProcessing + 1,
                 lastHeavyLoadTime := now + cost }
    else
      { s with lastProcessTimestamp := now, processingTime := cost,
               consecutiveHeavyProcessing := s.consecutiveHeavyProcessing + 1,
               lastHeavyLoadTime := now + cost })
  else
    (if s.throttled = true ∧ max 0 (s.consecutiveHeavyProcessing - 2/10) < 1
        ∧ 5000 < (now + cost) - s.lastHeavyLoadTime then
      disableThrottling
        { s with lastProcessTimestamp := now, processingTime := cost,
                 consecutiveHeavyProcessing := max 0 (s.consecutiveHeavyProcessing - 2/10) }
    else
      { s with lastProcessTimestamp := now, processingTime := cost,
               consecutiveHeavyProcessing := max 0 (s.consecutiveHeavyProcessing - 2/10) })

/-- Fold `processFrameTiming` over a sequence of (timestamp, cost)
frames. -/
def runFrames (s : PerfState) (frames : List (ℚ × ℚ)) : PerfState :=
  frames.foldl (fun st f => processFrameTiming st f.1 f.2) s

/-- A non-throttled mapper state with a zero consecutive-heavy counter and
the constructed 16 ms interval (src/audioEngine.js lines 1682-1699), with
the remaining fields arbitrary. -/
def freshPerfState (lpt pt lh : ℚ) (sel : List String) (ith : Bool) (cl : ℚ) : PerfState :=
  { throttled := false, minProcessInterval := 16, lastProcessTimestamp := lpt,
    processingTime := pt, consecutiveHeavyProcessing := 0, lastHeavyLoadTime := lh,
    selectedEffects := sel, isThrottling := ith, chaosLevel := cl }

/-- A concrete initialized engine state with baseline volume -10 dB and no
wet effects, used to exercise the volume path. -/
def baselineState : EngineState :=
  { initialized := true, baselineVolume := -10, volumeLevel := 0,
    wet := fun _ => none, params := fun _ _ => none,
    filterType := "lowpass", effectsChain := [], connections := [] }

/-- A concrete initialized engine state whose delay node exposes a wet
property and a numeric feedback parameter (as the Tone.FeedbackDelay node
does). -/
def delayState : EngineState :=
  { initialized := true, baselineVolume := -10, volumeLevel := 0,
    wet := fun k => if k == "delay" then some 0 else none,
    params := fun e p => if e == "delay" && p == "feedback" then some (3/10) else none,
    filterType := "lowpass", effectsChain := [], connections := [] }

/-- A concrete engine state whose delay wet level is 1/200 = 0.005:
strictly positive but not above the 0.01 epsilon the specification
mentions. -/
def lowWetState : EngineState :=
  { initialized := true, baselineVolume := -10, volumeLevel := 0,
    wet := fun k => if k == "delay" then some (1/200) else none,
    params := fun _ _ => none,
    filterType := "lowpass", effectsChain := [], connections := [] }

/-! ## Helper lemmas -/

theorem contains_eq_true_iff_mem (l : List String) (a : String) :
    l.contains a = true ↔ a ∈ l := by
  simp

theorem bne_eq_true_iff_ne (a b : String) : (a != b) = true ↔ a ≠ b := by
  simp

theorem find?_isSome_of_mem_effectNames {et : String} (h : et ∈ effectNames) :
    (availableParameters.find? (fun kv => kv.1 == et)).isSome := by
  rw [List.find?_isSome]
  obtain ⟨kv, hkv, rfl⟩ := List.mem_map.mp h
  exact ⟨kv, hkv, by simp⟩

theorem lookupParams_nodup (et : String) : (lookupParams et).Nodup := by
  unfold lookupParams
  cases h : availableParameters.find? (fun kv => kv.1 == et) with
  | none => simp
  | some kv =>
      have hmem := List.mem_of_find?_eq_some h
      have hall : ∀ kv ∈ availableParameters, (Prod.snd kv).Nodup := by decide
      simpa using hall kv hmem

theorem lookupParams_ne_nil {et : String} (h : et ∈ effectNames) :
    lookupParams et ≠ [] := by
  have hall : ∀ e ∈ effectNames, lookupParams e ≠ [] := by decide
  exact hall et h

theorem handPick_mem (r : Rand) (et p : String) : handPick r et p ∈ handParameters := by
  unfold handPick
  have hperm := r.sortHandParams_perm et p (handParameters.filter (fun q => q != "proximity"))
  have hne : r.sortHandParams et p (handParameters.filter (fun q => q != "proximity")) ≠ [] := by
    intro hnil
    have := hperm.length_eq
    rw [hnil] at this
    exact absurd this.symm (by decide)
  rw [List.headD_eq_head?, List.head?_eq_head hne]
  simp only [Option.getD_some]
  have hmem := hperm.mem_iff.mp (List.head_mem hne)
  exact (List.mem_filter.mp hmem).1

theorem mappingFor_spec (r : Rand) (et p : String) :
    ∀ m ∈ mappingFor r et p, m.effectType = et ∧ m.effectParameter = p := by
  intro m hm
  unfold mappingFor addMapping at hm
  split at hm
  · simp only [List.nil_append, List.mem_singleton] at hm
    subst hm
    exact ⟨rfl, rfl⟩
  · simp at hm

theorem mappingFor_length_le (r : Rand) (et p : String) :
    (mappingFor r et p).length ≤ 1 := by
  unfold mappingFor addMapping
  split <;> simp

theorem mappingFor_valid (r : Rand) {et p : String} (het : et ∈ effectNames)
    (hp : p ∈ lookupParams et) :
    mappingFor r et p =
      [{ effectType := et, effectParameter := p,
         handParameter := handPick r et p, inverted := r.invertFlag et p }] := by
  unfold mappingFor addMapping
  rw [if_pos ⟨find?_isSome_of_mem_effectNames het, hp, handPick_mem r et p⟩]
  rfl

theorem mem_effectMappings_type (r : Rand) (c : ℚ) (et : String) :
    ∀ m ∈ effectMappings r c et, m.effectType = et := by
  intro m hm
  unfold effectMappings at hm
  obtain ⟨p, _, hmp⟩ := List.mem_flatMap.mp hm
  exact (mappingFor_spec r et p m hmp).1

theorem paramCountFor_pos {c : ℚ} {m : Nat} (hc : 0 ≤ c) (hm : 1 ≤ m) :
    1 ≤ paramCountFor c m := by
  unfold paramCountFor
  refine le_min ?_ hm
  have hx : 0 < (c * (6/10) + 4/10) * (m : ℚ) := by
    have h1 : 0 ≤ c * (6/10) := mul_nonneg hc (by norm_num)
    have h2 : (0 : ℚ) < m := by exact_mod_cast Nat.lt_of_lt_of_le Nat.zero_lt_one hm
    nlinarith
  have hceil := Int.ceil_pos.mpr hx
  omega

theorem effectMappings_ne_nil (r : Rand) {c : ℚ} {et : String}
    (het : et ∈ effectNames) (hc : 0 ≤ c) :
    effectMappings r c et ≠ [] := by
  simp only [effectMappings]
  have hperm := r.shuffleParams_perm et (lookupParams et)
  have hlen : 1 ≤ (r.shuffleParams et (lookupParams et)).length := by
    rw [hperm.length_eq]
    exact List.length_pos.mpr (lookupParams_ne_nil het)
  obtain ⟨q, rest, hql⟩ := List.exists_cons_of_ne_nil
    (List.length_pos.mp (Nat.lt_of_lt_of_le Nat.zero_lt_one hlen))
  have hpc : 1 ≤ paramCountFor c (r.shuffleParams et (lookupParams et)).length :=
    paramCountFor_pos hc hlen
  have hq : q ∈ lookupParams et := by
    rw [← hperm.mem_iff]
    rw [hql]
    exact List.mem_cons_self q rest
  rw [hql] at hpc ⊢
  obtain ⟨k, hk⟩ := Nat.exists_eq_add_of_le hpc
  rw [hk, Nat.add_comm 1 k]
  simp only [List.take_succ_cons, List.flatMap_cons]
  rw [mappingFor_valid r het hq]
  simp

theorem effectMappings_pairs_nodup (r : Rand) (c : ℚ) (et : String) :
    ((effectMappings r c et).map
      (fun m => (m.effectType, m.effectParameter))).Nodup := by
  unfold effectMappings
  rw [List.map_flatMap]
  rw [List.nodup_flatMap]
  constructor
  · intro p _
    have hle := mappingFor_length_le r et p
    match hmf : mappingFor r et p with
    | [] => simp
    | [m] => simp
    | m1 :: m2 :: rest => rw [hmf] at hle; simp at hle
  · have hnodup : (List.take (paramCountFor c (r.shuffleParams et (lookupParams et)).length)
        (r.shuffleParams et (lookupParams et))).Nodup :=
      (List.take_sublist _ _).nodup
        ((r.shuffleParams_perm et (lookupParams et)).nodup_iff.mpr (lookupParams_nodup et))
    refine hnodup.imp ?_
    intro p q hpq
    intro x hxp hxq
    obtain ⟨m, hm, rfl⟩ := List.mem_map.mp hxp
    obtain ⟨m2, hm2, heq⟩ := List.mem_map.mp hxq
    have h1 := (mappingFor_spec r et p m hm).2
    have h2 := (mappingFor_spec r et q m2 hm2).2
    apply hpq
    rw [← h1, ← h2]
    have := congrArg Prod.snd heq
    simpa using this.symm

theorem chooseOne_mem {r : Rand} {l : List String} {x : String}
    (h : chooseOne r l = some x) : x ∈ l := by
  unfold chooseOne at h
  split at h
  · exact absurd h (by simp)
  · next hne =>
      have hl : l ≠ [] := by
        intro hnil
        rw [hnil] at hne
        exact hne rfl
      have hlt : r.pickIndex l % l.length < l.length :=
        Nat.mod_lt _ (List.length_pos.mpr hl)
      rw [List.getD_eq_getElem l "" hlt] at h
      have := Option.some.inj h
      rw [← this]
      exact List.getElem_mem hlt

theorem forcedPick_mem {r : Rand} {c : ℚ} {old et : List String} {x : String}
    (h : forcedPick r c old et = some x) : x ∈ et ∧ x ≠ "volume" := by
  unfold forcedPick at h
  have hchaotic : ∀ y ∈ chaoticEffects, y ≠ "volume" := by decide
  have hharmonic : ∀ y ∈ harmonicEffects, y ≠ "volume" := by decide
  split at h
  · have hmem := chooseOne_mem h
    obtain ⟨hy, hb⟩ := List.mem_filter.mp hmem
    rw [Bool.and_eq_true] at hb
    exact ⟨(contains_eq_true_iff_mem et x).mp hb.2, hchaotic x hy⟩
  · split at h
    · have hmem := chooseOne_mem h
      obtain ⟨hy, hb⟩ := List.mem_filter.mp hmem
      rw [Bool.and_eq_true] at hb
      exact ⟨(contains_eq_true_iff_mem et x).mp hb.2, hharmonic x hy⟩
    · exact absurd h (by simp)

theorem mem_selectEffects {r : Rand} {c : ℚ} {old et : List String} {n : Nat} {x : String}
    (h : x ∈ selectEffects r c old et n) : x ∈ et := by
  unfold selectEffects at h
  have hpool := r.sortPool_perm et
  split at h
  · next f hf =>
      rcases List.mem_cons.mp h with rfl | htail
      · exact (forcedPick_mem hf).1
      · have : x ∈ (r.sortPool et).erase f :=
          (List.take_sublist _ _).subset htail
        exact hpool.mem_iff.mp ((List.erase_sublist f (r.sortPool et)).subset this)
  · exact hpool.mem_iff.mp ((List.take_sublist _ _).subset h)

theorem selectEffects_nodup {r : Rand} {c : ℚ} {old et : List String} {n : Nat}
    (het : et.Nodup) : (selectEffects r c old et n).Nodup := by
  unfold selectEffects
  have hpool : (r.sortPool et).Nodup := (r.sortPool_perm et).nodup_iff.mpr het
  split
  · next f hf =>
      refine List.Nodup.cons ?_ ((List.take_sublist _ _).nodup (hpool.erase f))
      intro hmem
      have : f ∈ (r.sortPool et).erase f := (List.take_sublist _ _).subset hmem
      exact absurd ((hpool.mem_erase_iff.mp this).1) (by simp)
  · exact (List.take_sublist _ _).nodup hpool

theorem selectEffects_length {r : Rand} {c : ℚ} {old et : List String} {n : Nat}
    (h1 : 1 ≤ n) (h2 : n ≤ et.length) :
    (selectEffects r c old et n).length = n := by
  unfold selectEffects
  have hlen : (r.sortPool et).length = et.length := (r.sortPool_perm et).length_eq
  split
  · next f hf =>
      have hfet : f ∈ r.sortPool et :=
        (r.sortPool_perm et).mem_iff.mpr (forcedPick_mem hf).1
      have herase : ((r.sortPool et).erase f).length = et.length - 1 := by
        rw [List.length_erase_of_mem hfet, hlen]
      simp only [List.length_cons, List.length_take, herase]
      omega
  · simp only [List.length_take, hlen]
    omega

theorem mem_filteredEffectTypes {sel : List String} {x : String}
    (h : x ∈ filteredEffectTypes sel) : x ≠ "volume" ∧ (x ∈ sel ∨ x = "filter") := by
  simp only [filteredEffectTypes] at h
  split at h
  · have : x = "filter" := List.mem_singleton.mp h
    exact ⟨by rw [this]; decide, Or.inr this⟩
  · obtain ⟨hx, hb⟩ := List.mem_filter.mp h
    exact ⟨(bne_eq_true_iff_ne _ _).mp hb, Or.inl hx⟩

theorem filteredEffectTypes_nodup {sel : List String} (h : sel.Nodup) :
    (filteredEffectTypes sel).Nodup := by
  simp only [filteredEffectTypes]
  split
  · simp
  · exact h.filter _

theorem addMapping_volume_head :
    (addMapping [] ("volume") ("level") ("proximity") false).1 = [reservedVolumeMapping] := by
  decide

theorem toFinset_eq_singleton {l : List String} {a : String}
    (hne : l ≠ []) (h : ∀ x ∈ l, x = a) : l.toFinset = {a} := by
  ext x
  simp only [List.mem_toFinset, Finset.mem_singleton]
  constructor
  · exact h x
  · rintro rfl
    obtain ⟨y, hy⟩ := List.exists_mem_of_ne_nil l hne
    have := h y hy
    rw [← this]
    exact hy

theorem toFinset_flatMap_types (l : List String) (f : String → List Mapping)
    (h : ∀ a ∈ l, f a ≠ [] ∧ ∀ m ∈ f a, m.effectType = a) :
    (l.flatMap (fun a => (f a).map (fun m => m.effectType))).toFinset = l.toFinset := by
  induction l with
  | nil => rfl
  | cons a l ih =>
      simp only [List.flatMap_cons, List.toFinset_append, List.toFinset_cons]
      have ha := h a (List.mem_cons_self a l)
      have hmap : ((f a).map (fun m => m.effectType)).toFinset = {a} := by
        refine toFinset_eq_singleton (fun hn => ha.1 ?_) ?_
        · exact List.map_eq_nil_iff.mp hn
        · intro x hx
          obtain ⟨m, hm, rfl⟩ := List.mem_map.mp hx
          exact ha.2 m hm
      rw [hmap, ih (fun b hb => h b (List.mem_cons_of_mem a hb))]
      exact (Finset.insert_eq a l.toFinset).symm

theorem randomEffectCount_le {c : ℚ} {n : Nat} (hc1 : c ≤ 1) :
    randomEffectCount c n ≤ n := by
  unfold randomEffectCount
  rw [Int.toNat_le]
  have hd : (0:ℚ) ≤ ((min 8 n : ℕ) : ℚ) - ((min 2 n : ℕ) : ℚ) := by
    rw [sub_nonneg]
    exact_mod_cast (by omega : min 2 n ≤ min 8 n)
  have harg : ((min 2 n : ℕ) : ℚ) + c * (((min 8 n : ℕ) : ℚ) - ((min 2 n : ℕ) : ℚ))
      ≤ ((min 8 n : ℕ) : ℚ) := by
    have hmul := mul_le_of_le_one_left hd hc1
    linarith
  have hfl : Int.floor (((min 2 n : ℕ) : ℚ)
        + c * (((min 8 n : ℕ) : ℚ) - ((min 2 n : ℕ) : ℚ)))
      ≤ ((min 8 n : ℕ) : ℤ) := by
    calc Int.floor (((min 2 n : ℕ) : ℚ)
          + c * (((min 8 n : ℕ) : ℚ) - ((min 2 n : ℕ) : ℚ)))
        ≤ Int.floor (((min 8 n : ℕ) : ℚ)) := Int.floor_le_floor harg
      _ = ((min 8 n : ℕ) : ℤ) := Int.floor_natCast _
  have : ((min 8 n : ℕ) : ℤ) ≤ (n : ℤ) := by exact_mod_cast Nat.min_le_right 8 n
  omega

theorem randomEffectCount_pos {c : ℚ} {n : Nat} (hc0 : 0 ≤ c) (h1 : 1 ≤ n) :
    1 ≤ randomEffectCount c n := by
  unfold randomEffectCount
  have hmin : 1 ≤ min 2 n := by omega
  have hd : (0:ℚ) ≤ ((min 8 n : ℕ) : ℚ) - ((min 2 n : ℕ) : ℚ) := by
    rw [sub_nonneg]
    exact_mod_cast (by omega : min 2 n ≤ min 8 n)
  have harg : ((min 2 n : ℕ) : ℚ)
      ≤ ((min 2 n : ℕ) : ℚ) + c * (((min 8 n : ℕ) : ℚ) - ((min 2 n : ℕ) : ℚ)) := by
    have := mul_nonneg hc0 hd
    linarith
  have hfl : ((min 2 n : ℕ) : ℤ) ≤ Int.floor (((min 2 n : ℕ) : ℚ)
      + c * (((min 8 n : ℕ) : ℚ) - ((min 2 n : ℕ) : ℚ))) := by
    rw [Int.le_floor]
    exact_mod_cast harg
  omega

theorem filteredEffectTypes_eq {sel : List String}
    (h : sel.filter (fun t => t != "volume") ≠ []) :
    filteredEffectTypes sel = sel.filter (fun t => t != "volume") := by
  simp only [filteredEffectTypes]
  rw [if_neg (by simp [List.isEmpty_iff, h])]

theorem mem_chosen_valid {r : Rand} {c : ℚ} {prev sel : List String} {n : Nat}
    (hval : ∀ e ∈ sel, e ∈ effectNames) :
    ∀ x ∈ selectEffects r c prev (r.shuffleEffects (filteredEffectTypes sel)) n,
      x ∈ effectNames ∧ x ≠ "volume" := by
  intro x hx
  have hsh := mem_selectEffects hx
  have hft := (r.shuffleEffects_perm (filteredEffectTypes sel)).mem_iff.mp hsh
  obtain ⟨hnv, hcase⟩ := mem_filteredEffectTypes hft
  refine ⟨?_, hnv⟩
  rcases hcase with hmem | rfl
  · exact hval x hmem
  · decide

theorem card_createRandomMappings (r : Rand) (prev sel : List String) (c : ℚ)
    (hnodup : sel.Nodup) (hval : ∀ e ∈ sel, e ∈ effectNames)
    (hc0 : 0 ≤ c) (hc1 : c ≤ 1)
    (hn : 2 ≤ (sel.filter (fun t => t != "volume")).length) :
    ((createRandomMappings r prev sel c).mappings.map
        (fun m => m.effectType)).toFinset.card
      = 1 + randomEffectCount c (sel.filter (fun t => t != "volume")).length := by
  have hne : sel.filter (fun t => t != "volume") ≠ [] := by
    intro hnil
    rw [hnil] at hn
    simp at hn
  have hshlen : (r.shuffleEffects (filteredEffectTypes sel)).length
      = (sel.filter (fun t => t != "volume")).length := by
    rw [(r.shuffleEffects_perm _).length_eq, filteredEffectTypes_eq hne]
  have hrecpos : 1 ≤ randomEffectCount c (sel.filter (fun t => t != "volume")).length :=
    randomEffectCount_pos hc0 (by omega)
  have hrecle : randomEffectCount c (sel.filter (fun t => t != "volume")).length
      ≤ (r.shuffleEffects (filteredEffectTypes sel)).length := by
    rw [hshlen]
    exact randomEffectCount_le hc1
  have hchlen : (selectEffects r c prev (r.shuffleEffects (filteredEffectTypes sel))
      (randomEffectCount c (sel.filter (fun t => t != "volume")).length)).length
      = randomEffectCount c (sel.filter (fun t => t != "volume")).length :=
    selectEffects_length hrecpos hrecle
  have hchnodup : (selectEffects r c prev (r.shuffleEffects (filteredEffectTypes sel))
      (randomEffectCount c (sel.filter (fun t => t != "volume")).length)).Nodup :=
    selectEffects_nodup
      ((r.shuffleEffects_perm _).nodup_iff.mpr (filteredEffectTypes_nodup hnodup))
  have hchmem := @mem_chosen_valid r c prev sel
    (randomEffectCount c (sel.filter (fun t => t != "volume")).length) hval
  simp only [createRandomMappings]
  rw [hshlen, addMapping_volume_head]
  rw [List.map_append, List.map_flatMap]
  have hhead : List.map (fun m => m.effectType) [reservedVolumeMapping] = ["volume"] := by
    decide
  rw [hhead, List.singleton_append, List.toFinset_cons]
  rw [toFinset_flatMap_types _ _
    (fun a ha => ⟨effectMappings_ne_nil r (hchmem a ha).1 hc0,
      mem_effectMappings_type r c a⟩)]
  rw [Finset.card_insert_of_not_mem
    (fun hm => (hchmem _ (List.mem_toFinset.mp hm)).2 rfl)]
  rw [List.toFinset_card_of_nodup hchnodup, hchlen, Nat.add_comm]

theorem filter_volume_flatMap (r : Rand) (c : ℚ) (l : List String)
    (h : ∀ et ∈ l, et ≠ "volume") :
    (l.flatMap (fun effectType => effectMappings r c effectType)).filter
      (fun m => m.effectType == "volume") = [] := by
  rw [List.filter_eq_nil_iff]
  intro m hm
  obtain ⟨et, het, hmet⟩ := List.mem_flatMap.mp hm
  have htype := mem_effectMappings_type r c et m hmet
  simp [htype, h et het]

/-- C1: for every chaos level and every whitelist of known effects,
`createRandomMappings` emits exactly one volume mapping, and it is the
reserved (volume, level, proximity, inverted=false) one: filtering the
generated list down to volume mappings yields exactly that singleton. -/
theorem C1_reserved_volume_mapping (r : Rand) (prev sel : List String) (chaosLevel : ℚ)
    (hsel : ∀ e ∈ sel, e ∈ effectNames) :
    (createRandomMappings r prev sel chaosLevel).mappings.filter
        (fun m => m.effectType == "volume") = [reservedVolumeMapping] := by
  simp only [createRandomMappings]
  rw [addMapping_volume_head, List.filter_append]
  have h1 : List.filter (fun m => m.effectType == "volume") [reservedVolumeMapping]
      = [reservedVolumeMapping] := by decide
  rw [h1, filter_volume_flatMap r chaosLevel _
    (fun et het => (mem_chosen_valid hsel et het).2), List.append_nil]

theorem C1_reserved_volume_mapping_witness :
    (∀ e ∈ (["filter", "delay"] : List String), e ∈ effectNames)
    ∧ (createRandomMappings idRand [] ["filter", "delay"] 0).mappings.filter
        (fun m => m.effectType == "volume") = [reservedVolumeMapping] :=
  ⟨by decide, C1_reserved_volume_mapping idRand [] ["filter", "delay"] 0 (by decide)⟩

/-- C6: no two mappings produced by `createRandomMappings` share the same
(effectType, effectParameter) pair, for any chaos level, any duplicate-free
whitelist of known effects and any random choices. -/
theorem C6_no_duplicate_pairs (r : Rand) (prev sel : List String) (chaosLevel : ℚ)
    (hnodup : sel.Nodup) (hsel : ∀ e ∈ sel, e ∈ effectNames) :
    ((createRandomMappings r prev sel chaosLevel).mappings.map
        (fun m => (m.effectType, m.effectParameter))).Nodup := by
  have hchnodup : (selectEffects r chaosLevel prev
      (r.shuffleEffects (filteredEffectTypes sel))
      (randomEffectCount chaosLevel
        (r.shuffleEffects (filteredEffectTypes sel)).length)).Nodup :=
    selectEffects_nodup
      ((r.shuffleEffects_perm _).nodup_iff.mpr (filteredEffectTypes_nodup hnodup))
  simp only [createRandomMappings]
  rw [addMapping_volume_head, List.map_append, List.map_flatMap]
  have hhead : List.map (fun m => (m.effectType, m.effectParameter)) [reservedVolumeMapping]
      = [(("volume" : String), ("level" : String))] := by decide
  rw [hhead, List.singleton_append, List.nodup_cons]
  constructor
  · intro hmem
    obtain ⟨et, het, hx⟩ := List.mem_flatMap.mp hmem
    obtain ⟨m, hm, heq⟩ := List.mem_map.mp hx
    have htype := mem_effectMappings_type r chaosLevel et m hm
    have hnv := (mem_chosen_valid hsel et het).2
    apply hnv
    have := congrArg Prod.fst heq
    simp only at this
    rw [← htype, this]
  · rw [List.nodup_flatMap]
    refine ⟨fun et _ => effectMappings_pairs_nodup r chaosLevel et, ?_⟩
    refine List.Pairwise.imp ?_ hchnodup
    intro a b hab
    intro x hxa hxb
    obtain ⟨m, hm, rfl⟩ := List.mem_map.mp hxa
    obtain ⟨m2, hm2, heq⟩ := List.mem_map.mp hxb
    have h1 := mem_effectMappings_type r chaosLevel a m hm
    have h2 := mem_effectMappings_type r chaosLevel b m2 hm2
    apply hab
    have := congrArg Prod.fst heq
    simp only at this
    rw [← h1, ← h2, this]

theorem C6_no_duplicate_pairs_witness :
    (["filter", "delay"] : List String).Nodup
    ∧ ((createRandomMappings idRand [] ["filter", "delay"] 0).mappings.map
        (fun m => (m.effectType, m.effectParameter))).Nodup :=
  ⟨by decide, C6_no_duplicate_pairs idRand [] ["filter", "delay"] 0 (by decide) (by decide)⟩

/-- C5 counterexample: with chaos level 0 and the whitelist
[filter, delay, reverb] (so at least two non-volume effects available),
one concrete run covers exactly 3 effects (volume plus 2 others), not the
2 effects the claim states: the code's `minEffects` is 2, so chaos 0
already selects two non-volume effects besides volume. -/
theorem C5_counterexample :
    ((createRandomMappings idRand [] ["filter", "delay", "reverb"] 0).mappings.map
        (fun m => m.effectType)).toFinset.card = 3
    ∧ ¬ (((createRandomMappings idRand [] ["filter", "delay", "reverb"] 0).mappings.map
        (fun m => m.effectType)).toFinset.card = 2) := by
  have h := card_createRandomMappings idRand [] ["filter", "delay", "reverb"] 0
    (by decide) (by decide) (by norm_num) (by norm_num) (by decide)
  have hflen : (((["filter", "delay", "reverb"] : List String)).filter
      (fun t => t != "volume")).length = 3 := by decide
  rw [hflen] at h
  have hrec : randomEffectCount 0 3 = 2 := by
    unfold randomEffectCount
    norm_num
    omega
  rw [hrec] at h
  rw [h]
  norm_num

/-- C5 (amended): for a duplicate-free whitelist of known effects with at
least two non-volume entries and chaos level in [0,1], the generated
mapping set covers exactly 1 + floor(2 + chaosLevel * (min(8, n) - 2))
distinct effects, where n is the number of non-volume whitelist entries:
the non-volume effect count follows the claimed lerp formula, but the
total always includes volume on top of it (3 effects at chaos 0, 1 +
min(8, n) at chaos 1). -/
theorem C5_effect_count (r : Rand) (prev sel : List String) (chaosLevel : ℚ)
    (hnodup : sel.Nodup) (hsel : ∀ e ∈ sel, e ∈ effectNames)
    (hc0 : 0 ≤ chaosLevel) (hc1 : chaosLevel ≤ 1)
    (hn : 2 ≤ (sel.filter (fun t => t != "volume")).length) :
    ((createRandomMappings r prev sel chaosLevel).mappings.map
        (fun m => m.effectType)).toFinset.card
      = 1 + (Int.floor ((2 : ℚ) + chaosLevel
          * (((min 8 (sel.filter (fun t => t != "volume")).length : ℕ) : ℚ) - 2))).toNat := by
  rw [card_createRandomMappings r prev sel chaosLevel hnodup hsel hc0 hc1 hn]
  congr 2
  unfold randomEffectCount
  rw [min_eq_left hn]
  norm_num

theorem C5_effect_count_witness :
    (2 ≤ ((["filter", "delay", "reverb"] : List String).filter
      (fun t => t != "volume")).length)
    ∧ ((createRandomMappings idRand [] ["filter", "delay", "reverb"] (1/2)).mappings.map
        (fun m => m.effectType)).toFinset.card
      = 1 + (Int.floor ((2 : ℚ) + (1/2)
          * (((min 8 ((["filter", "delay", "reverb"] : List String).filter
              (fun t => t != "volume")).length : ℕ) : ℚ) - 2))).toNat :=
  ⟨by decide, C5_effect_count idRand [] ["filter", "delay", "reverb"] (1/2)
    (by decide) (by decide) (by norm_num) (by norm_num) (by decide)⟩

/-- C7: `updateEffectsChain` is idempotent: a second consecutive rebuild
with the unchanged wet-level state produces the same effects-chain node
sequence (and the same connection list) as a single rebuild. -/
theorem C7_updateEffectsChain_idempotent (s : EngineState) :
    (updateEffectsChain (updateEffectsChain s)).effectsChain
        = (updateEffectsChain s).effectsChain
    ∧ (updateEffectsChain (updateEffectsChain s)).connections
        = (updateEffectsChain s).connections :=
  ⟨rfl, rfl⟩

/-- C10: `setSelectedEffects` always stores volume even when it is absent
from the argument, and `getSelectedEffects` never reports volume, so the
volume effect can never be deselected. -/
theorem C10_volume_never_deselected :
    (∀ effectTypes : List String, "volume" ∈ setSelectedEffects effectTypes)
    ∧ (∀ selectedEffects : List String, "volume" ∉ getSelectedEffects selectedEffects) := by
  constructor
  · intro ts
    unfold setSelectedEffects
    split
    · next h => exact (contains_eq_true_iff_mem ts ("volume")).mp h
    · exact List.mem_append_right _ (List.mem_singleton.mpr rfl)
  · intro sel hmem
    unfold getSelectedEffects at hmem
    obtain ⟨_, hb⟩ := List.mem_filter.mp hmem
    exact absurd rfl ((bne_eq_true_iff_ne _ _).mp hb)

theorem setEffectParameter_volume (s : EngineState) (v : ℚ) (hinit : s.initialized = true) :
    setEffectParameter s ("volume") ("volume") v
      = ({ s with volumeLevel := min (max v (-60)) 12 }, true) := by
  unfold setEffectParameter
  rw [if_neg (fun hor => hor.elim (fun h => h hinit) (fun h => h (by decide)))]
  rw [if_pos ⟨rfl, rfl⟩]

theorem processHandDataVolume_spec (s : EngineState) (p : ℚ)
    (hinit : s.initialized = true) :
    (processHandDataVolume s p).volumeLevel
      = min (max (processVolume s.baselineVolume p) (-60)) 12 := by
  unfold processHandDataVolume
  rw [setEffectParameter_volume s _ hinit]

/-- C2 counterexample: with baseline -10 dB, the code applies
baseline + (proximity * 15 - 12), so proximity 0.5 yields -14.5 dB (not
approximately the -10 dB baseline), proximity 0 yields -22 dB (not
baseline - 40 = -50) and proximity 1 yields -7 dB (not
baseline + 12 = +2). -/
theorem C2_counterexample :
    (processHandDataVolume baselineState (1/2)).volumeLevel = -29/2
    ∧ ¬ ((-29/2 : ℚ) = -10)
    ∧ (processHandDataVolume baselineState 0).volumeLevel = -22
    ∧ ¬ ((-22 : ℚ) = -10 - 40)
    ∧ (processHandDataVolume baselineState 1).volumeLevel = -7
    ∧ ¬ ((-7 : ℚ) = -10 + 12) := by
  have hinit : baselineState.initialized = true := rfl
  have hb : baselineState.baselineVolume = -10 := rfl
  refine ⟨?_, by norm_num, ?_, by norm_num, ?_, by norm_num⟩
  · rw [processHandDataVolume_spec _ _ hinit, hb,
      (by norm_num [processVolume] : processVolume (-10) (1/2) = -29/2),
      max_eq_left (by norm_num), min_eq_left (by norm_num)]
  · rw [processHandDataVolume_spec _ _ hinit, hb,
      (by norm_num [processVolume] : processVolume (-10) 0 = -22),
      max_eq_left (by norm_num), min_eq_left (by norm_num)]
  · rw [processHandDataVolume_spec _ _ hinit, hb,
      (by norm_num [processVolume] : processVolume (-10) 1 = -7),
      max_eq_left (by norm_num), min_eq_left (by norm_num)]

/-- C2 (amended): with a hand frame present the reserved mapping applies
baseline + (proximity * 15 - 12) directly (no smoothing), clamped to
[-60, 12]: proximity 0.8 returns the baseline, proximity 0 approaches
baseline - 12 and proximity 1 approaches baseline + 3 (stated for
baselines in [-48, 9] where the clamp is inactive; a stored baseline of
exactly 0 dB would fall back to -10 via the JS falsy check). -/
theorem C2_volume_response (s : EngineState) (p : ℚ)
    (hinit : s.initialized = true) (hb0 : ¬ (s.baselineVolume = 0))
    (hlo : -48 ≤ s.baselineVolume) (hhi : s.baselineVolume ≤ 9) :
    (processHandDataVolume s (4/5)).volumeLevel = s.baselineVolume
    ∧ (processHandDataVolume s 0).volumeLevel = s.baselineVolume - 12
    ∧ (processHandDataVolume s 1).volumeLevel = s.baselineVolume + 3
    ∧ (0 ≤ p → p ≤ 1 →
        (processHandDataVolume s p).volumeLevel = s.baselineVolume + (p * 15 - 12)) := by
  have hgen : ∀ q : ℚ, 0 ≤ q → q ≤ 1 →
      (processHandDataVolume s q).volumeLevel = s.baselineVolume + (q * 15 - 12) := by
    intro q hq0 hq1
    rw [processHandDataVolume_spec s q hinit]
    unfold processVolume
    rw [if_neg hb0]
    rw [max_eq_left (by linarith), min_eq_left (by linarith)]
  refine ⟨?_, ?_, ?_, hgen p⟩
  · rw [hgen (4/5) (by norm_num) (by norm_num)]
    ring
  · rw [hgen 0 (by norm_num) (by norm_num)]
    ring
  · rw [hgen 1 (by norm_num) (by norm_num)]
    ring

theorem C2_volume_response_witness :
    baselineState.initialized = true
    ∧ (processHandDataVolume baselineState (4/5)).volumeLevel
        = baselineState.baselineVolume :=
  ⟨rfl, (C2_volume_response baselineState (1/2) rfl (by norm_num [baselineState])
    (by norm_num [baselineState]) (by norm_num [baselineState])).1⟩

theorem setEffectParameter_wet (s : EngineState) (e : String) (v : ℚ)
    (hinit : s.initialized = true) (hkeys : e ∈ engineEffectKeys)
    (hwet : (s.wet e).isSome = true) :
    (setEffectParameter s e ("wet") v).1.wet e = some (min (max 0 v) 1)
    ∧ (setEffectParameter s e ("wet") v).2 = true := by
  unfold setEffectParameter
  rw [if_neg (fun hor => hor.elim (fun h => h hinit) (fun h => h hkeys))]
  rw [if_neg (fun hand => by simpa using hand.2)]
  rw [if_neg (fun hand => by simpa using hand.2)]
  rw [if_pos ⟨rfl, hwet⟩]
  refine ⟨?_, rfl⟩
  show (if e = e then some (min (max 0 v) 1) else s.wet e) = some (min (max 0 v) 1)
  rw [if_pos rfl]

theorem setEffectParameter_generic (s : EngineState) (e p : String) (v : ℚ)
    (hinit : s.initialized = true) (hkeys : e ∈ engineEffectKeys)
    (h2 : ¬ (e = "volume" ∧ p = "volume"))
    (h3 : ¬ (e = "filter" ∧ p = "type"))
    (h4 : ¬ (p = "wet" ∧ (s.wet e).isSome = true))
    (h5 : (s.params e p).isSome = true) :
    (setEffectParameter s e p v).1.params e p = some v
    ∧ (setEffectParameter s e p v).2 = true := by
  unfold setEffectParameter
  rw [if_neg (fun hor => hor.elim (fun h => h hinit) (fun h => h hkeys))]
  rw [if_neg h2, if_neg h3, if_neg h4, if_pos h5]
  refine ⟨?_, ?_⟩
  · show ((if p = "wet" then updateEffectsChain _ else _).params e p) = some v
    split
    · show (if e = e ∧ p = p then some v else s.params e p) = some v
      rw [if_pos ⟨rfl, rfl⟩]
    · show (if e = e ∧ p = p then some v else s.params e p) = some v
      rw [if_pos ⟨rfl, rfl⟩]
  · rfl

/-- C3 counterexample: setting delay feedback to 5 (far above its declared
[0, 0.6] range) applies the raw value 5 without clamping and reports
success: only the volume and wet special cases clamp. -/
theorem C3_counterexample :
    (setEffectParameter delayState ("delay") ("feedback") 5).1.params ("delay") ("feedback")
        = some 5
    ∧ (setEffectParameter delayState ("delay") ("feedback") 5).2 = true
    ∧ (lookupRange ("delay") ("feedback")).map ParamRange.max = some (6/10)
    ∧ ¬ ((5 : ℚ) ≤ 6/10) := by
  have h := setEffectParameter_generic delayState ("delay") ("feedback") 5 rfl
    (by decide) (by decide) (by decide) (by decide) (by decide)
  exact ⟨h.1, h.2, rfl, by norm_num⟩

/-- C3 (amended): `setEffectParameter` is total (every failure path
returns false rather than throwing): an unknown effect returns the state
unchanged with false; the volume special case clamps to [-60, 12]; the
wet special case clamps to [0, 1]; every other existing numeric parameter
is applied with the raw value, without clamping to its declared
[min, max] range. -/
theorem C3_set_parameter_clamping (s : EngineState) (e p : String) (v : ℚ)
    (hinit : s.initialized = true) :
    ((setEffectParameter s ("volume") ("volume") v).1.volumeLevel = min (max v (-60)) 12)
    ∧ (¬ (e ∈ engineEffectKeys) → setEffectParameter s e p v = (s, false))
    ∧ (e ∈ engineEffectKeys → (s.wet e).isSome = true →
        (setEffectParameter s e ("wet") v).1.wet e = some (min (max 0 v) 1))
    ∧ (e ∈ engineEffectKeys → ¬ (e = "volume" ∧ p = "volume")
        → ¬ (e = "filter" ∧ p = "type") → ¬ (p = "wet" ∧ (s.wet e).isSome = true)
        → (s.params e p).isSome = true →
        (setEffectParameter s e p v).1.params e p = some v
          ∧ (setEffectParameter s e p v).2 = true) := by
  refine ⟨?_, ?_, ?_, ?_⟩
  · rw [setEffectParameter_volume s v hinit]
  · intro hk
    unfold setEffectParameter
    rw [if_pos (Or.inr hk)]
  · intro hk hw
    exact (setEffectParameter_wet s e v hinit hk hw).1
  · intro hk h2 h3 h4 h5
    exact setEffectParameter_generic s e p v hinit hk h2 h3 h4 h5

theorem C3_set_parameter_clamping_witness :
    delayState.initialized = true
    ∧ (setEffectParameter delayState ("volume") ("volume") 100).1.volumeLevel
        = min (max (100 : ℚ) (-60)) 12 :=
  ⟨rfl, (C3_set_parameter_clamping delayState ("delay") ("feedback") 100 rfl).1⟩

theorem mem_updateEffectsChain (s : EngineState) (k : String) :
    k ∈ (updateEffectsChain s).effectsChain
      ↔ (k ∈ engineEffectKeys ∧ ¬ (k = "compressor") ∧ ¬ (k = "volume")
          ∧ (wetAbove s k = true ∨ k = "filter" ∨ k = "eq" ∨ k = "panner")) := by
  simp only [updateEffectsChain, List.mem_filter, Bool.and_eq_true, Bool.not_eq_true',
    Bool.or_eq_false_iff, Bool.or_eq_true, beq_iff_eq, beq_eq_false_iff_ne]
  tauto

theorem wetPathLinks_getLast (chain : List String) :
    ∃ a, (wetPathLinks chain).getLast? = some (a, "crossFade.b") := by
  match chain with
  | [] => exact ⟨"postVolumeGain", rfl⟩
  | c :: rest =>
      refine ⟨(c :: rest).getLastD "", ?_⟩
      simp only [wetPathLinks]
      rw [List.getLast?_concat]

/-- C4 counterexample: an effect whose wet level is 1/200 = 0.005 (above 0
but not above the 0.01 epsilon, and not one of the fixed utilities) is
nevertheless a member of the rebuilt chain: the code's membership test is
wet > 0, not wet > 0.01. -/
theorem C4_counterexample :
    "delay" ∈ (updateEffectsChain lowWetState).effectsChain
    ∧ lowWetState.wet ("delay") = some (1/200)
    ∧ ¬ ((1/100 : ℚ) < 1/200)
    ∧ ¬ ("delay" ∈ (["filter", "eq", "panner", "compressor"] : List String)) := by
  refine ⟨?_, rfl, by norm_num, by decide⟩
  rw [mem_updateEffectsChain]
  refine ⟨by decide, by decide, by decide, Or.inl ?_⟩
  have hw : lowWetState.wet ("delay") = some (1/200) := rfl
  simp only [wetAbove, hw]
  rw [decide_eq_true_eq]
  norm_num

/-- C4 (amended): after a rebuild, an effect is a member of the wet-path
chain iff it is an effect key other than compressor and volume whose wet
level exceeds 0 or which is one of the unconditionally included utilities
filter, eq, panner (compressor is not part of the wet path); the
compressor and volume stages form the fixed prefix
source→compressor→volume→postVolumeGain of the connection list, and the
wet path ends at the crossfade's wet input crossFade.b. -/
theorem C4_chain_membership (s : EngineState) :
    (∀ k, k ∈ (updateEffectsChain s).effectsChain
      ↔ (k ∈ engineEffectKeys ∧ ¬ (k = "compressor") ∧ ¬ (k = "volume")
          ∧ (wetAbove s k = true ∨ k = "filter" ∨ k = "eq" ∨ k = "panner")))
    ∧ (updateEffectsChain s).connections.take 4
        = [("sourceNode", "compressor"), ("compressor", "volume"),
           ("volume", "postVolumeGain"), ("postVolumeGain", "crossFade.a")]
    ∧ (updateEffectsChain s).connections.getLast? = some ("crossFade", "outputNode")
    ∧ (∃ a, ((updateEffectsChain s).connections.dropLast).getLast?
          = some (a, "crossFade.b")) := by
  refine ⟨mem_updateEffectsChain s, ?_, ?_, ?_⟩
  · simp only [updateEffectsChain]
    rw [List.append_assoc]
    exact List.take_left' rfl
  · simp only [updateEffectsChain]
    rw [List.getLast?_concat]
  · simp only [updateEffectsChain]
    obtain ⟨a, ha⟩ := wetPathLinks_getLast
      (engineEffectKeys.filter
        (fun k => !(k == "compressor" || k == "volume")
          && (wetAbove s k || k == "filter" || k == "eq" || k == "panner")))
    refine ⟨a, ?_⟩
    rw [List.dropLast_concat, List.getLast?_append, ha]
    rfl

/-- C8 counterexample: when the store already holds an entry with the id
produced at save time (two saves in the same millisecond), `find` returns
the earlier entry, so loading the id returned by the save restores the
older mapping list, not the saved one. -/
theorem C8_counterexample :
    loadSavedSettings ("100")
        (saveCurrentSettings [reservedVolumeMapping] none ("fallback") ("100")
          [{ name := "old", mappings := [], id := "100" }]).2
      = some []
    ∧ ¬ ((some ([] : List Mapping)) = some [reservedVolumeMapping]) := by
  exact ⟨rfl, by decide⟩

/-- C8 (amended): saving and then loading by the returned id restores an
element-wise equal mapping list whenever no entry already in the store
carries the same id (in particular always when the save timestamp is
fresh). -/
theorem C8_save_load_roundtrip (mappings : List Mapping) (name : Option String)
    (defaultName nowId : String) (store : List SavedSetting)
    (hfresh : ∀ s ∈ store, ¬ (s.id = nowId)) :
    loadSavedSettings nowId
        (saveCurrentSettings mappings name defaultName nowId store).2
      = some mappings := by
  simp only [saveCurrentSettings, loadSavedSettings]
  rw [List.find?_append]
  rw [List.find?_eq_none.mpr (fun x hx => by simpa using hfresh x hx)]
  simp

theorem C8_save_load_roundtrip_witness :
    (∀ s ∈ ([{ name := "old", mappings := [], id := "1" }] : List SavedSetting),
        ¬ (s.id = "2"))
    ∧ loadSavedSettings ("2")
        (saveCurrentSettings [reservedVolumeMapping] none ("fallback") ("2")
          [{ name := "old", mappings := [], id := "1" }]).2
      = some [reservedVolumeMapping] :=
  ⟨by decide, C8_save_load_roundtrip [reservedVolumeMapping] none ("fallback") ("2")
    [{ name := "old", mappings := [], id := "1" }] (by decide)⟩

theorem volume_mem_setSelectedEffects (l : List String) :
    "volume" ∈ setSelectedEffects l := by
  unfold setSelectedEffects
  split
  · next h => exact (contains_eq_true_iff_mem l ("volume")).mp h
  · exact List.mem_append_right _ (List.mem_singleton.mpr rfl)

theorem mem_setSelectedEffects {l : List String} {e : String}
    (h : e ∈ setSelectedEffects l) : e ∈ l ∨ e = "volume" := by
  unfold setSelectedEffects at h
  split at h
  · exact Or.inl h
  · rcases List.mem_append.mp h with hl | hr
    · exact Or.inl hl
    · exact Or.inr (List.mem_singleton.mp hr)

theorem basicReduced_subset (current : List String) :
    ∀ x ∈ basicReduced current,
      x = "volume" ∨ x ∈ (["filter", "panner", "eq"] : List String) := by
  intro x hx
  unfold basicReduced at hx
  rcases List.mem_append.mp hx with h | h
  · exact Or.inl (List.mem_singleton.mp h)
  · exact Or.inr (List.mem_of_mem_filter h)

theorem reducedEffectsFor_subset (current : List String) :
    ∀ e ∈ reducedEffectsFor current,
      e = "volume" ∨ e ∈ (["filter", "panner", "eq"] : List String) ∨ e ∈ current := by
  intro e he
  unfold reducedEffectsFor at he
  split at he
  · split at he
    · rcases basicReduced_subset current e he with h | h
      · exact Or.inl h
      · exact Or.inr (Or.inl h)
    · next x xs hm =>
        rcases List.mem_append.mp he with h | h
        · rcases basicReduced_subset current e h with h2 | h2
          · exact Or.inl h2
          · exact Or.inr (Or.inl h2)
        · have hx : x ∈ current.filter (fun e => !((basicReduced current).contains e)) := by
            rw [hm]
            exact List.mem_cons_self x xs
          rw [List.mem_singleton.mp h]
          exact Or.inr (Or.inr (List.mem_of_mem_filter hx))
  · rcases basicReduced_subset current e he with h | h
    · exact Or.inl h
    · exact Or.inr (Or.inl h)

theorem throttleEffects_spec (s : PerfState) :
    (throttleEffects s).throttled = s.throttled
    ∧ "volume" ∈ (throttleEffects s).selectedEffects
    ∧ (∀ e ∈ (throttleEffects s).selectedEffects,
        e = "volume" ∨ e ∈ (["filter", "panner", "eq"] : List String)
          ∨ e ∈ s.selectedEffects) := by
  unfold throttleEffects
  split
  · refine ⟨rfl, volume_mem_setSelectedEffects ["filter", "volume"], ?_⟩
    intro e he
    have he2 : e ∈ setSelectedEffects ["filter", "volume"] := he
    rcases mem_setSelectedEffects he2 with hmem | rfl
    · have : e = "filter" ∨ e = "volume" := by simpa using hmem
      rcases this with rfl | rfl
      · exact Or.inr (Or.inl (by decide))
      · exact Or.inl rfl
    · exact Or.inl rfl
  · refine ⟨rfl,
      volume_mem_setSelectedEffects (reducedEffectsFor (getSelectedEffects s.selectedEffects)),
      ?_⟩
    intro e he
    have he2 : e ∈ setSelectedEffects (reducedEffectsFor (getSelectedEffects s.selectedEffects)) :=
      he
    rcases mem_setSelectedEffects he2 with hmem | rfl
    · rcases reducedEffectsFor_subset _ e hmem with h | h | h
      · exact Or.inl h
      · exact Or.inr (Or.inl h)
      · exact Or.inr (Or.inr (List.mem_of_mem_filter h))
    · exact Or.inl rfl

theorem enableThrottling_spec (s : PerfState) (h : s.throttled = false) :
    (enableThrottling s).throttled = true
    ∧ "volume" ∈ (enableThrottling s).selectedEffects
    ∧ (∀ e ∈ (enableThrottling s).selectedEffects,
        e = "volume" ∨ e ∈ (["filter", "panner", "eq"] : List String)
          ∨ e ∈ s.selectedEffects) := by
  unfold enableThrottling
  rw [if_neg (by rw [h]; exact Bool.false_ne_true)]
  obtain ⟨ht, hv, hsub⟩ :=
    throttleEffects_spec { s with throttled := true, minProcessInterval := 33 }
  exact ⟨ht, hv, fun e he => hsub e he⟩

theorem heavy_step (s : PerfState) (now cost : ℚ)
    (hthr : s.throttled = false)
    (hgate : s.minProcessInterval ≤ now - s.lastProcessTimestamp)
    (hcost : 8 < cost)
    (hcons : s.consecutiveHeavyProcessing + 1 ≤ 5) :
    processFrameTiming s now cost =
      { s with lastProcessTimestamp := now, processingTime := cost,
               consecutiveHeavyProcessing := s.consecutiveHeavyProcessing + 1,
               lastHeavyLoadTime := now + cost } := by
  unfold processFrameTiming
  rw [hthr, if_neg Bool.false_ne_true, if_neg (not_lt.mpr hgate), if_pos hcost,
    if_neg (fun hand => absurd hand.1 (not_lt.mpr hcons))]

theorem heavy_step_throttles (s : PerfState) (now cost : ℚ)
    (hthr : s.throttled = false)
    (hgate : s.minProcessInterval ≤ now - s.lastProcessTimestamp)
    (hcost : 8 < cost)
    (hcons : 5 < s.consecutiveHeavyProcessing + 1) :
    processFrameTiming s now cost =
      enableThrottling
        { s with lastProcessTimestamp := now, processingTime := cost,
                 consecutiveHeavyProcessing := s.consecutiveHeavyProcessing + 1,
                 lastHeavyLoadTime := now + cost } := by
  unfold processFrameTiming
  rw [hthr, if_neg Bool.false_ne_true, if_neg (not_lt.mpr hgate), if_pos hcost,
    if_pos ⟨hcons, rfl⟩]

theorem throttle_exit_requires_cooldown (s : PerfState) (now cost : ℚ)
    (hthr : s.throttled = true)
    (hexit : (processFrameTiming s now cost).throttled = false) :
    cost ≤ 8 ∧ 5000 < (now + cost) - s.lastHeavyLoadTime := by
  unfold processFrameTiming at hexit
  rw [hthr, if_pos rfl] at hexit
  by_cases hg : now - s.lastProcessTimestamp < 33
  · rw [if_pos hg] at hexit
    rw [hthr] at hexit
    exact absurd hexit (by simp)
  · rw [if_neg hg] at hexit
    by_cases hc : (8 : ℚ) < cost
    · rw [if_pos hc, if_neg (fun hand => absurd hand.2 (by simp))] at hexit
      simp at hexit
    · rw [if_neg hc] at hexit
      by_cases hcond : True ∧ max 0 (s.consecutiveHeavyProcessing - 2/10) < 1
          ∧ 5000 < (now + cost) - s.lastHeavyLoadTime
      · exact ⟨not_lt.mp hc, hcond.2.2⟩
      · rw [if_neg (fun hand => hcond ⟨trivial, hand.2⟩)] at hexit
        simp at hexit

/-- C9: from the non-throttled state with a zero consecutive-heavy
counter, six consecutive processed frames each costing more than 8 ms
leave the mapper unthrottled after frames 1-5 and throttled exactly at
the 6th; entering throttling shrinks the whitelist to the basic set, which
always includes volume and only ever contains volume, the cheap utilities
filter/panner/eq, or previously selected effects; and a throttled state
is only ever left on a light frame (cost at most 8 ms) once more than
5000 ms have passed since the last recorded heavy load. -/
theorem C9_throttling (lpt pt lh cl : ℚ) (sel : List String) (ith : Bool)
    (t1 t2 t3 t4 t5 t6 c1 c2 c3 c4 c5 c6 : ℚ)
    (h1 : 16 ≤ t1 - lpt) (h2 : 16 ≤ t2 - t1) (h3 : 16 ≤ t3 - t2)
    (h4 : 16 ≤ t4 - t3) (h5 : 16 ≤ t5 - t4) (h6 : 16 ≤ t6 - t5)
    (hc1 : 8 < c1) (hc2 : 8 < c2) (hc3 : 8 < c3)
    (hc4 : 8 < c4) (hc5 : 8 < c5) (hc6 : 8 < c6) :
    ((runFrames (freshPerfState lpt pt lh sel ith cl) [(t1, c1)]).throttled = false)
    ∧ ((runFrames (freshPerfState lpt pt lh sel ith cl)
        [(t1, c1), (t2, c2)]).throttled = false)
    ∧ ((runFrames (freshPerfState lpt pt lh sel ith cl)
        [(t1, c1), (t2, c2), (t3, c3)]).throttled = false)
    ∧ ((runFrames (freshPerfState lpt pt lh sel ith cl)
        [(t1, c1), (t2, c2), (t3, c3), (t4, c4)]).throttled = false)
    ∧ ((runFrames (freshPerfState lpt pt lh sel ith cl)
        [(t1, c1), (t2, c2), (t3, c3), (t4, c4), (t5, c5)]).throttled = false)
    ∧ ((runFrames (freshPerfState lpt pt lh sel ith cl)
        [(t1, c1), (t2, c2), (t3, c3), (t4, c4), (t5, c5), (t6, c6)]).throttled = true)
    ∧ ("volume" ∈ (runFrames (freshPerfState lpt pt lh sel ith cl)
        [(t1, c1), (t2, c2), (t3, c3), (t4, c4), (t5, c5), (t6, c6)]).selectedEffects)
    ∧ (∀ e ∈ (runFrames (freshPerfState lpt pt lh sel ith cl)
        [(t1, c1), (t2, c2), (t3, c3), (t4, c4), (t5, c5), (t6, c6)]).selectedEffects,
        e = "volume" ∨ e ∈ (["filter", "panner", "eq"] : List String) ∨ e ∈ sel)
    ∧ (∀ s : PerfState, ∀ now cost : ℚ, s.throttled = true →
        (processFrameTiming s now cost).throttled = false →
        cost ≤ 8 ∧ 5000 < (now + cost) - s.lastHeavyLoadTime) := by
  have e1 : processFrameTiming (freshPerfState lpt pt lh sel ith cl) t1 c1
      = (⟨false, 16, t1, c1, 0 + 1, t1 + c1, sel, ith, cl⟩ : PerfState) :=
    heavy_step _ t1 c1 rfl h1 hc1 (by show (0 : ℚ) + 1 ≤ 5; norm_num)
  have e2 : processFrameTiming (⟨false, 16, t1, c1, 0 + 1, t1 + c1, sel, ith, cl⟩ : PerfState)
        t2 c2
      = (⟨false, 16, t2, c2, 0 + 1 + 1, t2 + c2, sel, ith, cl⟩ : PerfState) :=
    heavy_step _ t2 c2 rfl h2 hc2 (by norm_num)
  have e3 : processFrameTiming
        (⟨false, 16, t2, c2, 0 + 1 + 1, t2 + c2, sel, ith, cl⟩ : PerfState) t3 c3
      = (⟨false, 16, t3, c3, 0 + 1 + 1 + 1, t3 + c3, sel, ith, cl⟩ : PerfState) :=
    heavy_step _ t3 c3 rfl h3 hc3 (by norm_num)
  have e4 : processFrameTiming
        (⟨false, 16, t3, c3, 0 + 1 + 1 + 1, t3 + c3, sel, ith, cl⟩ : PerfState) t4 c4
      = (⟨false, 16, t4, c4, 0 + 1 + 1 + 1 + 1, t4 + c4, sel, ith, cl⟩ : PerfState) :=
    heavy_step _ t4 c4 rfl h4 hc4 (by norm_num)
  have e5 : processFrameTiming
        (⟨false, 16, t4, c4, 0 + 1 + 1 + 1 + 1, t4 + c4, sel, ith, cl⟩ : PerfState) t5 c5
      = (⟨false, 16, t5, c5, 0 + 1 + 1 + 1 + 1 + 1, t5 + c5, sel, ith, cl⟩ : PerfState) :=
    heavy_step _ t5 c5 rfl h5 hc5 (by norm_num)
  have e6 : processFrameTiming
        (⟨false, 16, t5, c5, 0 + 1 + 1 + 1 + 1 + 1, t5 + c5, sel, ith, cl⟩ : PerfState) t6 c6
      = enableThrottling
          (⟨false, 16, t6, c6, 0 + 1 + 1 + 1 + 1 + 1 + 1, t6 + c6, sel, ith, cl⟩ : PerfState) :=
    heavy_step_throttles _ t6 c6 rfl h6 hc6 (by norm_num)
  obtain ⟨hth, hvol, hsub⟩ := enableThrottling_spec
    (⟨false, 16, t6, c6, 0 + 1 + 1 + 1 + 1 + 1 + 1, t6 + c6, sel, ith, cl⟩ : PerfState) rfl
  refine ⟨?_, ?_, ?_, ?_, ?_, ?_, ?_, ?_,
    fun s now cost h hx => throttle_exit_requires_cooldown s now cost h hx⟩
  · simp only [runFrames, List.foldl]
    rw [e1]
  · simp only [runFrames, List.foldl]
    rw [e1, e2]
  · simp only [runFrames, List.foldl]
    rw [e1, e2, e3]
  · simp only [runFrames, List.foldl]
    rw [e1, e2, e3, e4]
  · simp only [runFrames, List.foldl]
    rw [e1, e2, e3, e4, e5]
  · simp only [runFrames, List.foldl]
    rw [e1, e2, e3, e4, e5, e6]
    exact hth
  · simp only [runFrames, List.foldl]
    rw [e1, e2, e3, e4, e5, e6]
    exact hvol
  · simp only [runFrames, List.foldl]
    rw [e1, e2, e3, e4, e5, e6]
    exact hsub

theorem C9_throttling_witness :
    ((8 : ℚ) < 9)
    ∧ (runFrames (freshPerfState 0 0 0 defaultSelectedEffects false (2/10))
        [(16, 9), (32, 9), (48, 9), (64, 9), (80, 9), (96, 9)]).throttled = true :=
  ⟨by norm_num,
    (C9_throttling 0 0 0 (2/10) defaultSelectedEffects false 16 32 48 64 80 96 9 9 9 9 9 9
      (by norm_num) (by norm_num) (by norm_num) (by norm_num) (by norm_num) (by norm_num)
      (by norm_num) (by norm_num) (by norm_num) (by norm_num) (by norm_num)
      (by norm_num)).2.2.2.2.2.1⟩

end Manos
